import Mathlib

/-!
Shallow embedding of `django_celery_extensions/task.py`.

Times are modelled as integers (seconds); Python `None` becomes `Option`.
Python truthiness is modelled explicitly: an integer is truthy iff nonzero,
a string iff nonempty, a list iff nonempty, `None` is always falsy.
The shared dedup cache is modelled in two complementary ways:
* `CacheObs` traces record, per iteration of `_get_unique_task_id`'s
  reserve/read loop, what the cache held at the moment of the atomic `add`
  and at the moment of the subsequent `get` (the two may differ because of
  concurrent producers and TTL expiry);
* a sequentially consistent association-list `Cache` is used for the
  terminal-state clearing performed by `on_success` / `on_failure`.
Every cache operation a code path performs is additionally recorded in a
`CacheOp` log so that "this path never touches / never clears the cache"
is a statement about the log.
-/

/-- Python truthiness of an optional integer (`None` and `0` are falsy). -/
def optIntTruthy : Option Int → Bool
  | none => false
  | some n => n != 0

/-- Python truthiness of an optional string (`None` and `''` are falsy). -/
def optStrTruthy : Option String → Bool
  | none => false
  | some s => s != ""

/-- Python truthiness of an optional list (`None` and `[]` are falsy). -/
def optListTruthy : Option (List Int) → Bool
  | none => false
  | some l => !l.isEmpty

/-- The distinct error classes raised by the module: plain `CeleryError`
(direct call, protected request, missing stale time limit),
`NotTriggeredCeleryError` and celery's `TimeoutError`. -/
inductive CeleryErr where
  | staleTimeLimitRequired
  | calledDirectlyErr
  | protectedErr
  | notTriggered
  | timeoutErr
  deriving DecidableEq, Repr

/-- Static task configuration: the class attributes of a `DjangoTask`
subclass together with the app configuration values it reads. -/
structure TaskConfig where
  /-- `unique` class attribute. -/
  unique : Bool
  /-- `unique_key_generator`, applied to the serialized args/kwargs. -/
  uniqueKeyGen : String → String
  /-- `stale_time_limit` property (settings default). -/
  staleTimeLimitAttr : Option Int
  /-- `max_queue_waiting_time` property (settings default). -/
  maxQueueWaitingTime : Option Int
  /-- `soft_time_limit` celery attribute. -/
  softTimeLimit : Option Int
  /-- `app.conf.task_time_limit`. -/
  appTaskTimeLimit : Option Int
  /-- truthiness of the `autoretry_for` attribute (nonempty exception tuple). -/
  autoretryFor : Bool
  /-- `default_retry_delays` class attribute. -/
  defaultRetryDelays : Option (List Int)
  /-- `default_retry_delay` celery attribute. -/
  defaultRetryDelay : Int
  /-- `max_retries` celery attribute. -/
  maxRetries : Int
  /-- `expires` celery attribute, relative seconds or absolute time. -/
  expiresAttr : Option (Int ⊕ Int)
  /-- `app.conf.task_always_eager`. -/
  taskAlwaysEager : Bool

/-- `DjangoTask._get_unique_key`: the dedup key, present only for unique
tasks. -/
def getUniqueKey (t : TaskConfig) (argsKwargs : String) : Option String :=
  if t.unique then some (t.uniqueKeyGen argsKwargs) else none

/-- `DjangoTask._compute_eta`: countdown folded onto the trigger time wins,
else a given eta, else the trigger time itself. -/
def computeEta (eta : Option Int) (countdown : Option Int) (triggerTime : Int) : Int :=
  match countdown with
  | some c => triggerTime + c
  | none =>
    match eta with
    | some e => e
    | none => triggerTime

/-- `DjangoTask._get_time_limit`: caller value, else `soft_time_limit`,
else the app-level `task_time_limit`. -/
def getTimeLimit (t : TaskConfig) (timeLimit : Option Int) : Option Int :=
  match timeLimit with
  | some tl => some tl
  | none =>
    match t.softTimeLimit with
    | some s => some s
    | none => t.appTaskTimeLimit

/-- `DjangoTask._get_stale_time_limit`: explicit value, else class attribute,
else (when a time limit is known and `max_queue_waiting_time` is truthy) a
ceiling derived from the retry configuration, else `None`. -/
def getStaleTimeLimit (t : TaskConfig) (_expires : Option (Int ⊕ Int))
    (timeLimit : Option Int) (staleTimeLimit : Option Int) (_triggerTime : Int) :
    Option Int :=
  match staleTimeLimit with
  | some s => some s
  | none =>
    match t.staleTimeLimitAttr with
    | some s => some s
    | none =>
      match timeLimit with
      | some tl =>
        if optIntTruthy t.maxQueueWaitingTime then
          let mqwt := t.maxQueueWaitingTime.getD 0
          if t.autoretryFor && optListTruthy t.defaultRetryDelays then
            let delays := t.defaultRetryDelays.getD []
            some ((tl + mqwt) * delays.length + 1 + delays.sum)
          else if t.autoretryFor then
            some ((tl + mqwt + t.defaultRetryDelay) * t.maxRetries + tl + mqwt)
          else
            some (tl + mqwt)
        else
          none
      | none => none

/-- `DjangoTask._compute_expires`: explicit relative (`Sum.inl`) or absolute
(`Sum.inr`) expiry, else the `expires` class attribute, else derived from the
stale and time limits, else `None`.  The result is an absolute time. -/
def computeExpires (t : TaskConfig) (expires : Option (Int ⊕ Int))
    (timeLimit : Option Int) (staleTimeLimit : Option Int) (triggerTime : Int) :
    Option Int :=
  let expires := match expires with
    | none => t.expiresAttr
    | some e => some e
  match expires with
  | some (Sum.inl relSeconds) => some (triggerTime + relSeconds)
  | some (Sum.inr absTime) => some absTime
  | none =>
    match staleTimeLimit, timeLimit with
    | some stl, some tl => some (triggerTime + (stl - tl))
    | _, _ => none

/-- One iteration's view of the dedup cache entry inside
`_get_unique_task_id`: the value present at the instant of the atomic
`cache.add` (`none` means the add succeeds) and, when the add failed, the
value returned by the subsequent `cache.get`. -/
structure CacheObs where
  addPre : Option String
  getV : Option String
  deriving DecidableEq, Repr

/-- A cache operation performed by some code path. -/
inductive CacheOp where
  | add (key value : String) (success : Bool)
  | get (key : String)
  | delete (key : String)
  deriving DecidableEq, Repr

/-- The reserve/read loop of `DjangoTask._get_unique_task_id`: reserve the
key; on success own it, otherwise read the owner; a falsy read (the entry
expired between the failed add and the get) retries from scratch.  The result
is `none` when the observation trace is exhausted mid-loop; the `CacheOp` log
records every cache access made. -/
def uniqueLoop (key taskId : String) : List CacheObs → Option String × List CacheOp
  | [] => (none, [])
  | obs :: rest =>
    match obs.addPre with
    | none => (some taskId, [CacheOp.add key taskId true])
    | some _ =>
      match obs.getV with
      | some v =>
        if v != "" then
          (some v, [CacheOp.add key taskId false, CacheOp.get key])
        else
          let (r, ops) := uniqueLoop key taskId rest
          (r, CacheOp.add key taskId false :: CacheOp.get key :: ops)
      | none =>
        let (r, ops) := uniqueLoop key taskId rest
        (r, CacheOp.add key taskId false :: CacheOp.get key :: ops)

/-- `DjangoTask._get_unique_task_id`: a truthy unique key with a falsy stale
time limit is a fatal configuration error; a truthy unique key outside eager
mode runs the reserve/read loop; otherwise the invocation's own task id is
returned untouched. -/
def getUniqueTaskId (uniqueKey : Option String) (taskId : String)
    (staleTimeLimit : Option Int) (alwaysEager : Bool) (trace : List CacheObs) :
    Except CeleryErr (Option String) × List CacheOp :=
  if optStrTruthy uniqueKey && !optIntTruthy staleTimeLimit then
    (Except.error CeleryErr.staleTimeLimitRequired, [])
  else if optStrTruthy uniqueKey && !alwaysEager then
    let (r, ops) := uniqueLoop (uniqueKey.getD "") taskId trace
    (Except.ok r, ops)
  else
    (Except.ok (some taskId), [])

/-- Observable outcome of `DjangoTask._trigger`: whether a new task was
dispatched to the queue, which invocation callbacks fired, the task id the
returned handle refers to, and the resolved timing options. -/
structure TriggerOutcome where
  dispatchedNew : Bool
  uniqueCallback : Bool
  triggerCallback : Bool
  resultTaskId : String
  eta : Int
  expires : Option Int
  timeLimit : Option Int
  staleTimeLimit : Option Int
  deriving DecidableEq, Repr

/-- `DjangoTask._trigger`: resolve the task id and the timing options, run
uniqueness resolution, then either return a reference to the existing task
(`on_invocation_unique`, no dispatch) or dispatch a new one
(`on_invocation_trigger`).  `Except.ok none` means the reserve/read loop's
observation trace was exhausted. -/
def trigger (t : TaskConfig) (argsKwargs : String) (taskId0 : Option String)
    (freshId : String) (eta0 countdown0 : Option Int) (expires0 : Option (Int ⊕ Int))
    (timeLimit0 staleTimeLimit0 : Option Int) (isAsync : Bool) (triggerTime : Int)
    (trace : List CacheObs) :
    Except CeleryErr (Option TriggerOutcome) × List CacheOp :=
  let taskId := match taskId0 with
    | some s => if s != "" then s else freshId
    | none => freshId
  let timeLimit := getTimeLimit t timeLimit0
  let eta := computeEta eta0 countdown0 triggerTime
  let staleTimeLimit := getStaleTimeLimit t expires0 timeLimit staleTimeLimit0 triggerTime
  let expires := computeExpires t expires0 timeLimit staleTimeLimit triggerTime
  let uniqueKey := getUniqueKey t argsKwargs
  match getUniqueTaskId uniqueKey taskId staleTimeLimit t.taskAlwaysEager trace with
  | (Except.error e, ops) => (Except.error e, ops)
  | (Except.ok none, ops) => (Except.ok none, ops)
  | (Except.ok (some uniqueTaskId), ops) =>
    if isAsync && uniqueTaskId != taskId then
      (Except.ok (some {
        dispatchedNew := false
        uniqueCallback := true
        triggerCallback := false
        resultTaskId := uniqueTaskId
        eta := eta
        expires := expires
        timeLimit := timeLimit
        staleTimeLimit := staleTimeLimit }), ops)
    else
      (Except.ok (some {
        dispatchedNew := true
        uniqueCallback := false
        triggerCallback := true
        resultTaskId := taskId
        eta := eta
        expires := expires
        timeLimit := timeLimit
        staleTimeLimit := staleTimeLimit }), ops)

/-- The sequentially consistent dedup cache used for terminal-state
clearing: an association list from keys to task ids. -/
def Cache := List (String × String)

/-- `cache.get`. -/
def cacheGet : Cache → String → Option String
  | [], _ => none
  | (k', v) :: rest, k => if k' == k then some v else cacheGet rest k

/-- `cache.delete` (idempotent; deleting an absent key is a no-op). -/
def cacheDelete : Cache → String → Cache
  | [], _ => []
  | (k', v) :: rest, k =>
    if k' == k then cacheDelete rest k else (k', v) :: cacheDelete rest k

/-- `DjangoTask._clear_unique_key`: recompute the dedup key from the
args/kwargs and delete it when truthy. -/
def clearUniqueKey (t : TaskConfig) (argsKwargs : String) (c : Cache) : Cache :=
  match getUniqueKey t argsKwargs with
  | some k => if k != "" then cacheDelete c k else c
  | none => c

/-- Cache effect of `DjangoTask.on_success` (after the `on_task_success`
callback it clears the unique key). -/
def onSuccessCache (t : TaskConfig) (argsKwargs : String) (c : Cache) : Cache :=
  clearUniqueKey t argsKwargs c

/-- Cache effect of `DjangoTask.on_failure` (after the `on_task_failure`
callback it clears the unique key). -/
def onFailureCache (t : TaskConfig) (argsKwargs : String) (c : Cache) : Cache :=
  clearUniqueKey t argsKwargs c

/-- `DjangoTask.retry`, reduced to its pure scheduling decision: from the
caller-supplied `eta`, `countdown`, `max_retries` and `default_retry_delays`
override, the task configuration, the current attempt count
(`self.request.retries`) and the current time, compute the `eta` and
`max_retries` forwarded to celery's `Task.retry`. -/
def retrySchedule (t : TaskConfig) (eta countdown : Option Int)
    (maxRetries0 : Option Int) (defaultRetryDelaysArg : Option (List Int))
    (retries : Nat) (nowTime : Int) : Int × Option Int :=
  let useList := optListTruthy defaultRetryDelaysArg ||
    (eta.isNone && countdown.isNone && optListTruthy t.defaultRetryDelays)
  let (countdown1, maxRetries1) :=
    if useList then
      let delays := match defaultRetryDelaysArg with
        | none => t.defaultRetryDelays.getD []
        | some l => l
      (if retries < delays.length then some (delays.getD retries 0) else none,
        some (delays.length : Int))
    else
      (countdown, maxRetries0)
  let countdown2 :=
    if eta.isNone && countdown1.isNone then some t.defaultRetryDelay else countdown1
  let etaFinal := match eta with
    | some e => e
    | none => nowTime + countdown2.getD 0
  (etaFinal, maxRetries1)

/-- What a call of the wrapped result's `get` does, as a function of the
timeout argument it is (or is not) given: produce a value, or raise celery's
`TimeoutError` once the deadline elapses. -/
inductive GetOutcome (α : Type) where
  | success (v : α)
  | timeoutRaise
  deriving DecidableEq, Repr

/-- The slice of `AsyncResultWrapper` state the `get` path uses: the wrapped
celery `AsyncResult`, abstracted to its `get` behaviour as a function of the
timeout argument (`none` = no timeout, wait indefinitely). -/
structure WrappedResult (α : Type) where
  resultGet : Option Int → GetOutcome α

/-- `AsyncResultWrapper.get`: calls the wrapped result's `get` — passing it
no arguments, exactly as the source does — and on `TimeoutError` invokes the
`on_invocation_timeout` callback before re-raising.  The boolean records
whether the timeout callback ran. -/
def asyncResultWrapperGet {α : Type} (r : WrappedResult α)
    (_timeoutArg : Option Int) : Except CeleryErr α × Bool :=
  match r.resultGet none with
  | GetOutcome.success v => (Except.ok v, false)
  | GetOutcome.timeoutRaise => (Except.error CeleryErr.timeoutErr, true)

/-- A live reference to a dispatched task, as observed through a handle:
the proxied accessors and the `get` behaviour (by timeout argument). -/
structure BoundRef (α : Type) where
  getFn : Option Int → Except CeleryErr α
  state : String
  successfulV : Bool
  failedV : Bool
  taskIdV : Option String

/-- `OnCommitAsyncResult`: the deferred handle, holding no result until the
commit-time trigger binds one. -/
structure OnCommitAsyncResult (α : Type) where
  _result : Option (BoundRef α)

/-- `OnCommitAsyncResult.set_result`. -/
def OnCommitAsyncResult.setResult {α : Type} (_s : OnCommitAsyncResult α)
    (r : BoundRef α) : OnCommitAsyncResult α :=
  { _result := some r }

/-- `OnCommitAsyncResult.get`: before binding raise
`NotTriggeredCeleryError`; afterwards proxy to the bound reference,
forwarding the arguments. -/
def OnCommitAsyncResult.get {α : Type} (s : OnCommitAsyncResult α)
    (timeoutArg : Option Int) : Except CeleryErr α :=
  match s._result with
  | none => Except.error CeleryErr.notTriggered
  | some r => r.getFn timeoutArg

/-- `OnCommitAsyncResult.state`: `'WAITING'` before binding. -/
def OnCommitAsyncResult.state {α : Type} (s : OnCommitAsyncResult α) : String :=
  match s._result with
  | none => "WAITING"
  | some r => r.state

/-- `OnCommitAsyncResult.successful()`: `False` before binding. -/
def OnCommitAsyncResult.successful {α : Type} (s : OnCommitAsyncResult α) : Bool :=
  match s._result with
  | none => false
  | some r => r.successfulV

/-- `OnCommitAsyncResult.failed()`: `False` before binding. -/
def OnCommitAsyncResult.failed {α : Type} (s : OnCommitAsyncResult α) : Bool :=
  match s._result with
  | none => false
  | some r => r.failedV

/-- `OnCommitAsyncResult.task_id`: `None` before binding. -/
def OnCommitAsyncResult.taskId {α : Type} (s : OnCommitAsyncResult α) : Option String :=
  match s._result with
  | none => none
  | some r => r.taskIdV

/-- The worker request context `DjangoTask.__call__` inspects: the top of
the request stack, its `called_directly` marker and the `_protected`
consumption flag. -/
structure WorkerRequest where
  calledDirectly : Bool
  _protected : Bool
  deriving DecidableEq, Repr

/-- `DjangoTask.__call__`: reject a missing or `called_directly` request
context, reject an already-consumed (`_protected`) one, otherwise mark the
context consumed, fire `on_task_start` and run the handler.  Returns the
updated request together with whether `on_task_start` ran. -/
def callTask (reqTop : Option WorkerRequest) :
    Except CeleryErr (WorkerRequest × Bool) :=
  match reqTop with
  | none => Except.error CeleryErr.calledDirectlyErr
  | some req =>
    if req.calledDirectly then
      Except.error CeleryErr.calledDirectlyErr
    else if req._protected then
      Except.error CeleryErr.protectedErr
    else
      Except.ok ({ req with _protected := true }, true)

/-! ## Concrete task configurations used as witnesses and counterexamples -/

/-- A unique task with an auto-retry policy and a fixed retry-delay list
(`[10, 20]`), `max_queue_waiting_time = 5`, nothing else configured. -/
def delayListAutoretryTask : TaskConfig where
  unique := true
  uniqueKeyGen := fun _ => "dedup-key"
  staleTimeLimitAttr := none
  maxQueueWaitingTime := some 5
  softTimeLimit := none
  appTaskTimeLimit := none
  autoretryFor := true
  defaultRetryDelays := some [10, 20]
  defaultRetryDelay := 180
  maxRetries := 3
  expiresAttr := none
  taskAlwaysEager := false

/-- The same task but with no auto-retry policy (`autoretry_for` absent),
keeping the fixed retry-delay list `[10, 20]`. -/
def delayListNoAutoretryTask : TaskConfig :=
  { delayListAutoretryTask with autoretryFor := false }

/-- A unique task with no stale time limit configured and no way to derive
one (no time limit anywhere). -/
def noStaleTask : TaskConfig :=
  { delayListAutoretryTask with maxQueueWaitingTime := none }

/-- A task with the retry-delay list `[10, 30, 90]` from the spec's retry
example. -/
def retryListTask : TaskConfig :=
  { delayListAutoretryTask with defaultRetryDelays := some [10, 30, 90] }

/-! ## Claims -/

/-- **C4.** For every eta, countdown and trigger_time: a given countdown
yields `trigger_time + countdown`; with no countdown a given eta is returned
unchanged; with neither, the trigger time itself is returned. -/
theorem computeEta_cases (eta : Option Int) (c e tt : Int) :
    computeEta eta (some c) tt = tt + c ∧
    computeEta (some e) none tt = e ∧
    computeEta none none tt = tt :=
  ⟨rfl, rfl, rfl⟩

/-- **C8.** `get` on a deferred handle before binding raises the
not-yet-triggered error (a different error than the timeout error) without
blocking; after `set_result` binds a real reference, `get` proxies to it. -/
theorem onCommit_get_before_and_after_binding {α : Type} (targ : Option Int)
    (s : OnCommitAsyncResult α) (r : BoundRef α) :
    (OnCommitAsyncResult.get (α := α) ⟨none⟩ targ) =
      Except.error CeleryErr.notTriggered ∧
    CeleryErr.notTriggered ≠ CeleryErr.timeoutErr ∧
    (s.setResult r).get targ = r.getFn targ :=
  ⟨rfl, by decide, rfl⟩

/-- **C10.** An unbound deferred handle's non-get accessors are total with
fixed placeholder values: `state = 'WAITING'`, `successful() = False`,
`failed() = False`, `task_id = None`; after binding each proxies to the
bound reference. -/
theorem onCommit_placeholder_accessors {α : Type}
    (s : OnCommitAsyncResult α) (r : BoundRef α) :
    (OnCommitAsyncResult.state (α := α) ⟨none⟩) = "WAITING" ∧
    (OnCommitAsyncResult.successful (α := α) ⟨none⟩) = false ∧
    (OnCommitAsyncResult.failed (α := α) ⟨none⟩) = false ∧
    (OnCommitAsyncResult.taskId (α := α) ⟨none⟩) = none ∧
    (s.setResult r).state = r.state ∧
    (s.setResult r).successful = r.successfulV ∧
    (s.setResult r).failed = r.failedV ∧
    (s.setResult r).taskId = r.taskIdV :=
  ⟨rfl, rfl, rfl, rfl, rfl, rfl, rfl, rfl⟩

/-- **C9.** Calling the task handler outside the worker execution context
(no request on the stack, or a request marked `called_directly`) fails with
an error; a successful call marks the request context consumed
(`_protected`), and a second invocation through that consumed context also
fails. -/
theorem callTask_worker_context_guard (req : WorkerRequest)
    (h1 : req.calledDirectly = false) (h2 : req._protected = false) :
    callTask none = Except.error CeleryErr.calledDirectlyErr ∧
    (∀ r : WorkerRequest, r.calledDirectly = true →
      callTask (some r) = Except.error CeleryErr.calledDirectlyErr) ∧
    callTask (some req) = Except.ok ({ req with _protected := true }, true) ∧
    callTask (some { req with _protected := true }) =
      Except.error CeleryErr.protectedErr := by
  refine ⟨rfl, ?_, ?_, ?_⟩
  · intro r hr
    simp [callTask, hr]
  · simp [callTask, h1, h2]
  · simp [callTask, h1]

/-- Witness for `callTask_worker_context_guard` at the concrete fresh
request `⟨false, false⟩`. -/
theorem callTask_worker_context_guard_witness :
    callTask (some (⟨false, false⟩ : WorkerRequest)) =
      Except.ok ((⟨false, true⟩ : WorkerRequest), true) ∧
    callTask (some (⟨false, true⟩ : WorkerRequest)) =
      Except.error CeleryErr.protectedErr :=
  ⟨(callTask_worker_context_guard ⟨false, false⟩ rfl rfl).2.2.1,
    (callTask_worker_context_guard ⟨false, false⟩ rfl rfl).2.2.2⟩

/-- A wrapped result whose `get` honours its timeout argument: given any
finite timeout it raises `TimeoutError` (the task has not completed inside
the deadline); given no timeout it waits indefinitely for the value. -/
def deadlineRespectingGet : Option Int → GetOutcome Int
  | some _ => GetOutcome.timeoutRaise
  | none => GetOutcome.success 42

/-- **C5** (code evaluation at the failing input).  The source's
`AsyncResultWrapper.get` invokes the wrapped result's `get` with *no*
arguments, so the caller's timeout is silently dropped: with an underlying
result that honours deadlines, `get(timeout := 0)` on an incomplete task
returns the value instead of timing out, and the outcome never depends on
the timeout argument at all.  The timeout-callback-before-re-raise half of
the claim does hold: whenever the inner `get` raises `TimeoutError`, the
`on_invocation_timeout` callback runs and the error is re-raised. -/
theorem asyncResultWrapperGet_drops_timeout :
    asyncResultWrapperGet (⟨deadlineRespectingGet⟩ : WrappedResult Int) (some 0) =
      (Except.ok 42, false) ∧
    (∀ targ : Option Int,
      asyncResultWrapperGet (⟨deadlineRespectingGet⟩ : WrappedResult Int) targ =
        asyncResultWrapperGet (⟨deadlineRespectingGet⟩ : WrappedResult Int) none) ∧
    (∀ (α : Type) (r : WrappedResult α) (targ : Option Int),
      r.resultGet none = GetOutcome.timeoutRaise →
      asyncResultWrapperGet r targ = (Except.error CeleryErr.timeoutErr, true)) := by
  refine ⟨rfl, fun targ => rfl, ?_⟩
  intro α r targ h
  simp [asyncResultWrapperGet, h]

/-- Witness for `asyncResultWrapperGet_drops_timeout`: the
callback-then-re-raise branch at a concrete always-timing-out result. -/
theorem asyncResultWrapperGet_drops_timeout_witness :
    asyncResultWrapperGet
        (⟨fun _ => GetOutcome.timeoutRaise⟩ : WrappedResult Int) (some 5) =
      (Except.error CeleryErr.timeoutErr, true) :=
  asyncResultWrapperGet_drops_timeout.2.2 Int
    ⟨fun _ => GetOutcome.timeoutRaise⟩ (some 5) rfl

/-- **C2.** An invocation of a unique task whose stale time limit resolves
to nothing (no explicit value, no task-level default, none derivable) fails
with the fatal configuration error before performing any cache operation
(empty `CacheOp` log) and before any dispatch. -/
theorem unique_task_without_stale_fails_fast (t : TaskConfig)
    (args fid : String) (tid0 : Option String) (eta0 countdown0 : Option Int)
    (expires0 : Option (Int ⊕ Int)) (timeLimit0 staleTimeLimit0 : Option Int)
    (isAsync : Bool) (tt : Int) (trace : List CacheObs)
    (hu : t.unique = true) (hk : t.uniqueKeyGen args ≠ "")
    (hres : getStaleTimeLimit t expires0 (getTimeLimit t timeLimit0)
      staleTimeLimit0 tt = none) :
    trigger t args tid0 fid eta0 countdown0 expires0 timeLimit0 staleTimeLimit0
        isAsync tt trace =
      (Except.error CeleryErr.staleTimeLimitRequired, []) := by
  simp [trigger, getUniqueKey, getUniqueTaskId, hu, hk, hres, optStrTruthy,
    optIntTruthy]

/-- Witness for `unique_task_without_stale_fails_fast`: the concrete
`noStaleTask` (no stale limit configured, no queue-waiting time to derive
one from). -/
theorem unique_task_without_stale_fails_fast_witness :
    trigger noStaleTask "args" none "fresh-id" none none none (some 60) none
        true 0 [] =
      (Except.error CeleryErr.staleTimeLimitRequired, []) :=
  unique_task_without_stale_fails_fast noStaleTask "args" "fresh-id" none none
    none none (some 60) none true 0 [] rfl (by decide) rfl

/-- **C3** (counterexample).  The claim derives the list formula whenever a
time limit, a max queue waiting time and a fixed retry-delay list exist, so
for `time_limit = 60`, `max_queue_waiting_time = 5`, delays `[10, 20]` it
demands `(60+5)*2 + 1 + 30 = 161` — but with no auto-retry policy
(`autoretry_for` absent) the source's `_get_stale_time_limit` ignores the
delay list and returns `time_limit + max_queue_waiting_time = 65`. -/
theorem stale_list_formula_needs_autoretry :
    getStaleTimeLimit delayListNoAutoretryTask none (some 60) none 0 =
      some 65 ∧
    ((60 + 5) * 2 + 1 + (10 + 20) : Int) = 161 ∧
    getStaleTimeLimit delayListNoAutoretryTask none (some 60) none 0 ≠
      some 161 := by
  refine ⟨?_, by norm_num, ?_⟩ <;> decide

/-- **C3** (amended).  The effective stale time limit is computed with
precedence: the explicit caller value; else the task-level default; else,
whenever a time limit is known and a nonzero max queue waiting time is set:
if an auto-retry policy is configured *and* a fixed retry-delay list exists,
`(time_limit + max_queue_waiting_time) * N + 1 + sum(delays)` with `N` the
list length; else, if an auto-retry policy is configured,
`(time_limit + max_queue_waiting_time + retry_delay) * max_retries +
time_limit + max_queue_waiting_time`; else
`time_limit + max_queue_waiting_time`. -/
theorem stale_time_limit_precedence (t : TaskConfig)
    (e : Option (Int ⊕ Int)) (tt : Int) :
    (∀ (tl0 : Option Int) (s : Int),
      getStaleTimeLimit t e tl0 (some s) tt = some s) ∧
    (∀ (tl0 : Option Int) (d : Int), t.staleTimeLimitAttr = some d →
      getStaleTimeLimit t e tl0 none tt = some d) ∧
    (∀ (tl q : Int) (l : List Int), t.staleTimeLimitAttr = none →
      t.maxQueueWaitingTime = some q → q ≠ 0 →
      t.autoretryFor = true → t.defaultRetryDelays = some l → l ≠ [] →
      getStaleTimeLimit t e (some tl) none tt =
        some ((tl + q) * l.length + 1 + l.sum)) ∧
    (∀ (tl q : Int), t.staleTimeLimitAttr = none →
      t.maxQueueWaitingTime = some q → q ≠ 0 →
      t.autoretryFor = true →
      (t.defaultRetryDelays = none ∨ t.defaultRetryDelays = some []) →
      getStaleTimeLimit t e (some tl) none tt =
        some ((tl + q + t.defaultRetryDelay) * t.maxRetries + tl + q)) ∧
    (∀ (tl q : Int), t.staleTimeLimitAttr = none →
      t.maxQueueWaitingTime = some q → q ≠ 0 →
      t.autoretryFor = false →
      getStaleTimeLimit t e (some tl) none tt = some (tl + q)) := by
  refine ⟨fun tl0 s => rfl, fun tl0 d hd => ?_, ?_, ?_, ?_⟩
  · simp [getStaleTimeLimit, hd]
  · intro tl q l h1 h2 h3 h4 h5 h6
    simp [getStaleTimeLimit, h1, h2, h3, h4, h5, h6, optIntTruthy,
      optListTruthy, List.isEmpty_iff]
  · intro tl q h1 h2 h3 h4 h5
    rcases h5 with h5 | h5 <;>
      simp [getStaleTimeLimit, h1, h2, h3, h4, h5, optIntTruthy, optListTruthy]
  · intro tl q h1 h2 h3 h4
    simp [getStaleTimeLimit, h1, h2, h3, h4, optIntTruthy]

/-- Witness for `stale_time_limit_precedence`: the spec's own example with
an auto-retry policy — `time_limit = 60`, `max_queue_waiting_time = 5`,
delays `[10, 20]` yield `161`. -/
theorem stale_time_limit_precedence_witness :
    getStaleTimeLimit delayListAutoretryTask none (some 60) none 0 =
      some 161 := by
  have h := (stale_time_limit_precedence delayListAutoretryTask none 0).2.2.1
    60 5 [10, 20] rfl rfl (by decide) rfl rfl (by decide)
  norm_num at h
  exact h

/-- **C6.** With the task's retry-delay list configured and no explicit eta
or countdown: while the 0-indexed attempt count is within the list, the
retry eta is `now + list[attempt]` and the `max_retries` forwarded to celery
equals the list length; once attempts reach the list length no list-derived
delay is produced — the schedule falls back to the configured flat
`default_retry_delay`; an explicit eta overrides the computed delay
entirely. -/
theorem retry_delay_list_schedule (t : TaskConfig) (l : List Int)
    (a : Nat) (nowT : Int) (hl : t.defaultRetryDelays = some l) (hne : l ≠ []) :
    (a < l.length →
      retrySchedule t none none none none a nowT =
        (nowT + l.getD a 0, some (l.length : Int))) ∧
    (l.length ≤ a →
      retrySchedule t none none none none a nowT =
        (nowT + t.defaultRetryDelay, some (l.length : Int))) ∧
    (∀ (e : Int) (countdown0 maxRetries0 : Option Int)
        (delaysArg : Option (List Int)),
      (retrySchedule t (some e) countdown0 maxRetries0 delaysArg a nowT).1 = e)
    := by
  refine ⟨fun ha => ?_, fun ha => ?_, fun e countdown0 maxRetries0 delaysArg => ?_⟩
  · simp [retrySchedule, hl, hne, ha, optListTruthy, List.isEmpty_iff]
  · simp [retrySchedule, hl, hne, Nat.not_lt.mpr ha, optListTruthy,
      List.isEmpty_iff]
  · simp [retrySchedule]

/-- Witness for `retry_delay_list_schedule`: the spec's list `[10, 30, 90]`
— attempt 0 gives delay 10, attempt 1 delay 30, attempt 2 delay 90, attempt
3 falls back to the flat `default_retry_delay` (180); an explicit eta 777
is kept. -/
theorem retry_delay_list_schedule_witness :
    retrySchedule retryListTask none none none none 0 1000 =
      (1010, some 3) ∧
    retrySchedule retryListTask none none none none 1 1000 =
      (1030, some 3) ∧
    retrySchedule retryListTask none none none none 2 1000 =
      (1090, some 3) ∧
    retrySchedule retryListTask none none none none 3 1000 =
      (1180, some 3) ∧
    (retrySchedule retryListTask (some 777) none none none 0 1000).1 = 777 := by
  have h0 := (retry_delay_list_schedule retryListTask [10, 30, 90] 0 1000 rfl
    (by decide)).1 (by decide)
  have h1 := (retry_delay_list_schedule retryListTask [10, 30, 90] 1 1000 rfl
    (by decide)).1 (by decide)
  have h2 := (retry_delay_list_schedule retryListTask [10, 30, 90] 2 1000 rfl
    (by decide)).1 (by decide)
  have h3 := (retry_delay_list_schedule retryListTask [10, 30, 90] 3 1000 rfl
    (by decide)).2.1 (by decide)
  have h4 := (retry_delay_list_schedule retryListTask [10, 30, 90] 0 1000 rfl
    (by decide)).2.2 777 none none none
  refine ⟨?_, ?_, ?_, ?_, h4⟩
  · rw [h0]; norm_num
  · rw [h1]; norm_num
  · rw [h2]; norm_num
  · rw [h3]; norm_num [retryListTask, delayListAutoretryTask]

/-- **C1.** For a unique task dispatched asynchronously (not eager) with a
resolved stale time limit: when the atomic reserve of the dedup key fails
and the read returns an existing owner id, `on_invocation_unique` fires and
the returned handle references that owner id with no new dispatch; when the
reserve succeeds, the invocation's own task id is used and a new dispatch
occurs (`on_invocation_trigger`); when the read returns absent, the
reservation attempt is retried from scratch. -/
theorem unique_async_dedup (t : TaskConfig) (args fid tid : String)
    (stl : Int) (eta0 countdown0 : Option Int) (expires0 : Option (Int ⊕ Int))
    (timeLimit0 : Option Int) (tt : Int)
    (hu : t.unique = true) (he : t.taskAlwaysEager = false)
    (hk : t.uniqueKeyGen args ≠ "") (htid : tid ≠ "") (hs : stl ≠ 0) :
    (∀ (w owner : String) (rest : List CacheObs), owner ≠ "" → owner ≠ tid →
      ∃ r : TriggerOutcome,
        trigger t args (some tid) fid eta0 countdown0 expires0 timeLimit0
            (some stl) true tt (⟨some w, some owner⟩ :: rest) =
          (Except.ok (some r),
            [CacheOp.add (t.uniqueKeyGen args) tid false,
              CacheOp.get (t.uniqueKeyGen args)]) ∧
        r.dispatchedNew = false ∧ r.uniqueCallback = true ∧
        r.triggerCallback = false ∧ r.resultTaskId = owner) ∧
    (∀ (g : Option String) (rest : List CacheObs),
      ∃ r : TriggerOutcome,
        trigger t args (some tid) fid eta0 countdown0 expires0 timeLimit0
            (some stl) true tt (⟨none, g⟩ :: rest) =
          (Except.ok (some r), [CacheOp.add (t.uniqueKeyGen args) tid true]) ∧
        r.dispatchedNew = true ∧ r.uniqueCallback = false ∧
        r.triggerCallback = true ∧ r.resultTaskId = tid) ∧
    (∀ (w : String) (rest : List CacheObs),
      (getUniqueTaskId (some (t.uniqueKeyGen args)) tid (some stl) false
        (⟨some w, none⟩ :: rest)).1 =
      (getUniqueTaskId (some (t.uniqueKeyGen args)) tid (some stl) false
        rest).1) := by
  refine ⟨?_, ?_, ?_⟩
  · intro w owner rest h1 h2
    refine ⟨{
      dispatchedNew := false
      uniqueCallback := true
      triggerCallback := false
      resultTaskId := owner
      eta := computeEta eta0 countdown0 tt
      expires := computeExpires t expires0 (getTimeLimit t timeLimit0)
        (some stl) tt
      timeLimit := getTimeLimit t timeLimit0
      staleTimeLimit := some stl }, ?_, rfl, rfl, rfl, rfl⟩
    simp [trigger, getUniqueKey, getUniqueTaskId, uniqueLoop,
      getStaleTimeLimit, optStrTruthy, optIntTruthy, hu, he, hk, htid, hs,
      h1, h2]
  · intro g rest
    refine ⟨{
      dispatchedNew := true
      uniqueCallback := false
      triggerCallback := true
      resultTaskId := tid
      eta := computeEta eta0 countdown0 tt
      expires := computeExpires t expires0 (getTimeLimit t timeLimit0)
        (some stl) tt
      timeLimit := getTimeLimit t timeLimit0
      staleTimeLimit := some stl }, ?_, rfl, rfl, rfl, rfl⟩
    simp [trigger, getUniqueKey, getUniqueTaskId, uniqueLoop,
      getStaleTimeLimit, optStrTruthy, optIntTruthy, hu, he, hk, htid, hs]
  · intro w rest
    rcases hres : uniqueLoop (t.uniqueKeyGen args) tid rest with ⟨r, ops⟩
    simp [getUniqueTaskId, uniqueLoop, optStrTruthy, optIntTruthy, hk, hs,
      hres]

/-- Witness for `unique_async_dedup`: a failed reserve against the existing
owner `owner-1` collapses into a reference to it with no new dispatch. -/
theorem unique_async_dedup_witness :
    ∃ r : TriggerOutcome,
      trigger delayListAutoretryTask "args" (some "tid-1") "fresh" none none
          none none (some 100) true 0
          [⟨some "owner-1", some "owner-1"⟩] =
        (Except.ok (some r),
          [CacheOp.add "dedup-key" "tid-1" false, CacheOp.get "dedup-key"]) ∧
      r.dispatchedNew = false ∧ r.uniqueCallback = true ∧
      r.triggerCallback = false ∧ r.resultTaskId = "owner-1" :=
  (unique_async_dedup delayListAutoretryTask "args" "fresh" "tid-1" 100
    none none none none 0 rfl rfl (by decide) (by decide) (by decide)).1
    "owner-1" "owner-1" [] (by decide) (by decide)

/-- The reserve/read loop performs only adds and gets, never a delete. -/
theorem uniqueLoop_no_delete (key tid k' : String) (trace : List CacheObs) :
    CacheOp.delete k' ∉ (uniqueLoop key tid trace).2 := by
  induction trace with
  | nil => simp [uniqueLoop]
  | cons obs rest ih =>
    rcases obs with ⟨addPre, getV⟩
    rcases hres : uniqueLoop key tid rest with ⟨r, ops⟩
    rw [hres] at ih
    rcases addPre with _ | w
    · simp [uniqueLoop]
    · rcases getV with _ | v
      · simpa [uniqueLoop, hres] using ih
      · by_cases hv : (v != "") = true
        · simp [uniqueLoop, hv]
        · simpa [uniqueLoop, hv, hres] using ih

/-- `_get_unique_task_id` performs only adds and gets, never a delete. -/
theorem getUniqueTaskId_no_delete (uk : Option String) (tid : String)
    (stl : Option Int) (eager : Bool) (trace : List CacheObs) (k' : String) :
    CacheOp.delete k' ∉ (getUniqueTaskId uk tid stl eager trace).2 := by
  by_cases h1 : (optStrTruthy uk && !optIntTruthy stl) = true
  · simp [getUniqueTaskId, h1]
  · by_cases h2 : (optStrTruthy uk && !eager) = true
    · rcases hres : uniqueLoop (uk.getD "") tid trace with ⟨r, ops⟩
      have h := uniqueLoop_no_delete (uk.getD "") tid k' trace
      rw [hres] at h
      simpa [getUniqueTaskId, h1, h2, hres] using h
    · simp [getUniqueTaskId, h1, h2]

/-- `_trigger` performs only the cache operations of `_get_unique_task_id`;
in particular it never deletes a cache entry. -/
theorem trigger_never_deletes (t : TaskConfig) (args fid : String)
    (tid0 : Option String) (eta0 countdown0 : Option Int)
    (expires0 : Option (Int ⊕ Int)) (timeLimit0 stl0 : Option Int)
    (isAsync : Bool) (tt : Int) (trace : List CacheObs) (k' : String) :
    CacheOp.delete k' ∉
      (trigger t args tid0 fid eta0 countdown0 expires0 timeLimit0 stl0
        isAsync tt trace).2 := by
  have key : ∀ (uk : Option String) (tid : String) (stl : Option Int)
      (eg : Bool) (res : Except CeleryErr (Option String))
      (ops : List CacheOp),
      getUniqueTaskId uk tid stl eg trace = (res, ops) →
      CacheOp.delete k' ∉ ops := by
    intro uk tid stl eg res ops heq
    have h := getUniqueTaskId_no_delete uk tid stl eg trace k'
    rw [heq] at h
    exact h
  simp only [trigger]
  split
  next e ops heq => exact key _ _ _ _ _ _ heq
  next ops heq => exact key _ _ _ _ _ _ heq
  next uid ops heq =>
    split
    · exact key _ _ _ _ _ _ heq
    · exact key _ _ _ _ _ _ heq

/-- Deleting a key from the cache makes a subsequent read of it miss. -/
theorem cacheGet_cacheDelete (c : Cache) (k : String) :
    cacheGet (cacheDelete c k) k = none := by
  induction c with
  | nil => rfl
  | cons p rest ih =>
    rcases p with ⟨k1, v⟩
    by_cases h : k1 = k
    · simpa [cacheDelete, h] using ih
    · simpa [cacheDelete, cacheGet, h] using ih

/-- **C7.** For a unique task the dedup entry for its args/kwargs is cleared
when the owning dispatch reaches a terminal state — by `on_success` and by
`on_failure` alike — while `_trigger` (in particular the path returning a
dedup reference to an existing dispatch) never deletes any cache entry. -/
theorem dedup_cleared_on_terminal_only (t : TaskConfig) (args : String)
    (c : Cache) (hu : t.unique = true) (hk : t.uniqueKeyGen args ≠ "") :
    cacheGet (onSuccessCache t args c) (t.uniqueKeyGen args) = none ∧
    cacheGet (onFailureCache t args c) (t.uniqueKeyGen args) = none ∧
    (∀ (fid : String) (tid0 : Option String) (eta0 countdown0 : Option Int)
        (expires0 : Option (Int ⊕ Int)) (timeLimit0 stl0 : Option Int)
        (isAsync : Bool) (tt : Int) (trace : List CacheObs) (k' : String),
      CacheOp.delete k' ∉
        (trigger t args tid0 fid eta0 countdown0 expires0 timeLimit0 stl0
          isAsync tt trace).2) := by
  refine ⟨?_, ?_, ?_⟩
  · simp [onSuccessCache, clearUniqueKey, getUniqueKey, hu, hk,
      cacheGet_cacheDelete]
  · simp [onFailureCache, clearUniqueKey, getUniqueKey, hu, hk,
      cacheGet_cacheDelete]
  · intro fid tid0 eta0 countdown0 expires0 timeLimit0 stl0 isAsync tt trace k'
    exact trigger_never_deletes t args fid tid0 eta0 countdown0 expires0
      timeLimit0 stl0 isAsync tt trace k'

/-- Witness for `dedup_cleared_on_terminal_only`: a concrete cache holding
the dedup key is cleared by the success and failure callbacks. -/
theorem dedup_cleared_on_terminal_only_witness :
    cacheGet
        (onSuccessCache delayListAutoretryTask "args" [("dedup-key", "t9")])
        "dedup-key" = none ∧
    cacheGet
        (onFailureCache delayListAutoretryTask "args" [("dedup-key", "t9")])
        "dedup-key" = none :=
  ⟨(dedup_cleared_on_terminal_only delayListAutoretryTask "args"
      [("dedup-key", "t9")] rfl (by decide)).1,
    (dedup_cleared_on_terminal_only delayListAutoretryTask "args"
      [("dedup-key", "t9")] rfl (by decide)).2.1⟩
